import Mathlib

/-!
Verification development for the MediaCleanup script (src/script.py).

The script determines which movies and series on an Emby media server have
gone unwatched past a cutoff, correlates them with Radarr/Sonarr catalogs,
and optionally deletes them.  Timestamps (ISO-8601 strings in the source,
which Python compares lexicographically, i.e. chronologically) are modelled
as natural numbers; only their total order is ever used.  Fallible HTTP
calls are modelled as pure gateway functions, and the sequence of gateway
calls a run performs is tracked explicitly so that claims about which calls
are (not) issued can be stated.
-/

/-- Per-user watch state of an item, as read from the `UserData` dict:
`LastPlayedDate` (absent modelled as `none`), `PlayedPercentage` (default 0)
and `Played` (default `False`). -/
structure UserData where
  lastPlayedDate : Option Nat
  playedPercentage : Nat
  played : Bool
deriving DecidableEq, Repr

/-- A media item as returned by the Emby `/Items` endpoints: `Id`, `Name`,
`Type` (the string `Movie`, `Series` or `Episode`), `DateCreated`,
`DateLastPlayed`, the per-user `UserData` (meaningful only on responses of
user-scoped queries) and the `LibraryName` key the script attaches to
surviving items (absent until attached). -/
structure Item where
  id : Nat
  name : String
  itemType : String
  dateCreated : Option Nat
  dateLastPlayed : Option Nat
  userData : UserData
  libraryName : Option String
deriving DecidableEq, Repr

/-- An Emby user: `Id` and `Name`. -/
structure EmbyUser where
  id : Nat
  name : String
deriving DecidableEq, Repr

/-- An Emby virtual folder (library): `ItemId` and `Name`; the source reads
both with `.get`, so either may be absent. -/
structure Library where
  itemId : Option Nat
  name : Option String
deriving DecidableEq, Repr

/-- The pure query surface of the Emby server, one field per `EmbyClient`
endpoint used by `get_unwatched_items`: users, libraries, all items of a
library, a user's items of a library, all episodes of a series, and a
user's episodes of a series. -/
structure Emby where
  users : List EmbyUser
  libraries : List Library
  items : Nat → List Item
  userItems : Nat → Nat → List Item
  episodes : Nat → List Item
  userEpisodes : Nat → Nat → List Item

/-- One gateway call issued to the Emby server, used to record the call
trace of a run. -/
inductive EmbyCall where
  | getUsers
  | getLibraries
  | getItems (libraryId : Nat)
  | getUserItems (userId libraryId : Nat)
  | getEpisodes (seriesId : Nat)
  | getUserEpisodes (userId seriesId : Nat)
deriving DecidableEq, Repr

/-- Line 200 / line 793: `(datetime.datetime.now() - timedelta(days=days)).isoformat()`,
the cutoff timestamp computed from the current time. -/
def cutoffDate (now : Nat) (days : Nat) : Nat :=
  now - days

/-- Lines 262-264 / 285-287: an item counts as watched by a user iff its
`LastPlayedDate` is present and after the cutoff, or `Played` is set, or
`PlayedPercentage` exceeds 75. -/
def watchedPredicate (cutoff_date : Nat) (ud : UserData) : Bool :=
  (match ud.lastPlayedDate with
   | some lp => decide (lp > cutoff_date)
   | Option.none => false)
  || ud.played || decide (ud.playedPercentage > 75)

/-- Python `str.lower()`: lowercase the string character by character
(ASCII case mapping suffices for this development). -/
def pyLower (s : String) : String :=
  String.mk (s.data.map Char.toLower)

/-- Lines 206-211: a server user is whitelisted iff its name matches one of
the operator-supplied names case-insensitively; the matching users' ids are
collected. -/
def resolveWhitelistedIds (users : List EmbyUser) (whitelisted_users : List String) : List Nat :=
  (users.filter (fun u => whitelisted_users.any (fun w => pyLower u.name == pyLower w))).map EmbyUser.id

/-- Lines 222-239: with a non-empty filter, keep the libraries whose `Name`
is present, non-empty (Python truthiness) and in the filter; if none remain
the whole resolution returns the empty list (modelled as `none`).  With an
empty filter all libraries are kept. -/
def filterLibraries (libraries : List Library) (library_names : List String) : Option (List Library) :=
  if library_names.isEmpty then
    some libraries
  else
    let filtered := libraries.filter (fun lib =>
      match lib.name with
      | some n => !(n == "") && library_names.contains n
      | Option.none => false)
    if filtered.isEmpty then Option.none else some filtered

/-- Lines 251-291, innermost loop of the whitelisted-watch pass: for each
item of a whitelisted user's library view, if the user's watch-state meets
the watched predicate the item id is added to the exclusion set, and — only
inside that branch — for a series the user's episodes are fetched and a
watched episode adds the series id (again).  The call trace and the added
ids are returned. -/
def userItemsPass (gw : Emby) (cutoff_date : Nat) (user_id : Nat) : List Item → List EmbyCall × List Nat
  | [] => ([], [])
  | item :: rest =>
    let tail := userItemsPass gw cutoff_date user_id rest
    if watchedPredicate cutoff_date item.userData then
      if item.itemType == "Series" then
        let episodes := gw.userEpisodes user_id item.id
        let fromEpisodes : List Nat :=
          if episodes.any (fun ep => watchedPredicate cutoff_date ep.userData) then [item.id] else []
        (EmbyCall.getUserEpisodes user_id item.id :: tail.1, item.id :: (fromEpisodes ++ tail.2))
      else
        (tail.1, item.id :: tail.2)
    else
      tail

/-- Lines 249-291: the whitelisted-watch pass over one library: fetch each
whitelisted user's items for the library and collect the exclusions. -/
def userLibraryPass (gw : Emby) (cutoff_date : Nat) (library_id : Nat) : List Nat → List EmbyCall × List Nat
  | [] => ([], [])
  | user_id :: rest =>
    let items := gw.userItems user_id library_id
    let inner := userItemsPass gw cutoff_date user_id items
    let tail := userLibraryPass gw cutoff_date library_id rest
    (EmbyCall.getUserItems user_id library_id :: (inner.1 ++ tail.1), inner.2 ++ tail.2)

/-- Lines 244-291: the whitelisted-watch pass over all active libraries;
libraries without an `ItemId` are skipped. -/
def whitelistPass (gw : Emby) (cutoff_date : Nat) (user_ids : List Nat) : List Library → List EmbyCall × List Nat
  | [] => ([], [])
  | lib :: rest =>
    let tail := whitelistPass gw cutoff_date user_ids rest
    match lib.itemId with
    | Option.none => tail
    | some library_id =>
      let inner := userLibraryPass gw cutoff_date library_id user_ids
      (inner.1 ++ tail.1, inner.2 ++ tail.2)

/-- Line 242: the whitelisted-watch pass runs only when some whitelisted
user id was resolved. -/
def whitelistRun (gw : Emby) (cutoff_date : Nat) (user_ids : List Nat) (libs : List Library) : List EmbyCall × List Nat :=
  if user_ids.isEmpty then ([], []) else whitelistPass gw cutoff_date user_ids libs

/-- Lines 321-326: whether any episode of the series was recently played by
anyone, i.e. has a `DateLastPlayed` after the cutoff. -/
def anyEpisodeRecentlyPlayed (gw : Emby) (cutoff_date : Nat) (series_id : Nat) : Bool :=
  (gw.episodes series_id).any (fun ep =>
    match ep.dateLastPlayed with
    | some lp => decide (lp > cutoff_date)
    | Option.none => false)

/-- Lines 331-335: an item is recently added iff its `DateCreated` is
present and strictly after the cutoff. -/
def recentlyAdded (cutoff_date : Nat) (item : Item) : Bool :=
  match item.dateCreated with
  | some dc => decide (dc > cutoff_date)
  | Option.none => false

/-- Lines 337-338: the final membership test — `DateLastPlayed` absent or
strictly before the cutoff. -/
def lastPlayedTest (cutoff_date : Nat) (item : Item) : Bool :=
  match item.dateLastPlayed with
  | some lp => decide (lp < cutoff_date)
  | Option.none => true

/-- Line 339: `item['LibraryName'] = library_name`. -/
def setLibraryName (item : Item) (library_name : Option String) : Item :=
  { item with libraryName := library_name }

/-- Lines 306-340, per-item body of the global pass: skip if excluded by
the whitelist pass; for a non-excluded series fetch its episodes and skip
the series if any was recently played; skip recently added items; keep the
item (with the library name attached) iff the final last-played test
passes. -/
def processItem (gw : Emby) (cutoff_date : Nat) (excluded : List Nat) (library_name : Option String)
    (item : Item) : List EmbyCall × List Item :=
  if excluded.contains item.id then
    ([], [])
  else
    let checkSeries : Bool := item.itemType == "Series" && !(excluded.contains item.id)
    let epTrace : List EmbyCall := if checkSeries then [EmbyCall.getEpisodes item.id] else []
    let recentlyWatched : Bool := checkSeries && anyEpisodeRecentlyPlayed gw cutoff_date item.id
    if recentlyWatched then (epTrace, [])
    else if recentlyAdded cutoff_date item then (epTrace, [])
    else if lastPlayedTest cutoff_date item then (epTrace, [setLibraryName item library_name])
    else (epTrace, [])

/-- Lines 306-340 iterated over the items of one library. -/
def processItems (gw : Emby) (cutoff_date : Nat) (excluded : List Nat) (library_name : Option String) :
    List Item → List EmbyCall × List Item
  | [] => ([], [])
  | item :: rest =>
    let hd := processItem gw cutoff_date excluded library_name item
    let tail := processItems gw cutoff_date excluded library_name rest
    (hd.1 ++ tail.1, hd.2 ++ tail.2)

/-- Lines 296-340: the global unwatched pass over all active libraries;
libraries without an `ItemId` are skipped, otherwise the library's items
are fetched and processed. -/
def globalPass (gw : Emby) (cutoff_date : Nat) (excluded : List Nat) : List Library → List EmbyCall × List Item
  | [] => ([], [])
  | lib :: rest =>
    let tail := globalPass gw cutoff_date excluded rest
    match lib.itemId with
    | Option.none => tail
    | some library_id =>
      let inner := processItems gw cutoff_date excluded lib.name (gw.items library_id)
      (EmbyCall.getItems library_id :: (inner.1 ++ tail.1), inner.2 ++ tail.2)

/-- Lines 199-343 with the cutoff already computed: resolve the whitelisted
ids from the users, filter the libraries (returning empty on a non-matching
non-empty filter), run the whitelisted-watch pass and then the global pass.
Returns the gateway-call trace alongside the resulting unwatched items. -/
def get_unwatched_items_at (gw : Emby) (cutoff_date : Nat) (whitelisted_users library_names : List String) :
    List EmbyCall × List Item :=
  let user_ids := resolveWhitelistedIds gw.users whitelisted_users
  match filterLibraries gw.libraries library_names with
  | Option.none => ([EmbyCall.getUsers, EmbyCall.getLibraries], [])
  | some libs =>
    let wt := whitelistRun gw cutoff_date user_ids libs
    let gp := globalPass gw cutoff_date wt.2 libs
    (EmbyCall.getUsers :: EmbyCall.getLibraries :: (wt.1 ++ gp.1), gp.2)

/-- `EmbyClient.get_unwatched_items` (lines 188-343): computes the cutoff
from the current time (line 200) and resolves as above. -/
def get_unwatched_items (gw : Emby) (now days : Nat) (whitelisted_users library_names : List String) :
    List EmbyCall × List Item :=
  get_unwatched_items_at gw (cutoffDate now days) whitelisted_users library_names

/-- A Radarr movie / Sonarr series catalog entry: `title`, numeric `id`,
`sizeOnDisk` (for a Sonarr series the size sits under `statistics`; only
the title and id matter to the title search). -/
structure ArrEntry where
  title : String
  id : Nat
  sizeOnDisk : Nat
deriving DecidableEq, Repr

/-- Whether `needle` occurs as a contiguous substring of the list of
characters, the semantics of the Python `in` operator on strings. -/
def isSubstringAux (needle : List Char) : List Char → Bool
  | [] => needle.isEmpty
  | c :: rest => needle.isPrefixOf (c :: rest) || isSubstringAux needle rest

/-- Python `needle in hay` on strings. -/
def isSubstring (needle hay : String) : Bool :=
  isSubstringAux needle.toList hay.toList

/-- Lines 388-389 / 476-477: case-insensitive exact title equality. -/
def exactTitleMatch (title : String) (entry : ArrEntry) : Bool :=
  pyLower entry.title == pyLower title

/-- Lines 393-394 / 481-482: case-insensitive containment in either
direction between the searched title and the catalog title. -/
def containTitleMatch (title : String) (entry : ArrEntry) : Bool :=
  isSubstring (pyLower title) (pyLower entry.title) || isSubstring (pyLower entry.title) (pyLower title)

/-- `RadarrClient.find_movie_by_title` (lines 470-485): return the first
exact case-insensitive match; failing that, the first containment match;
failing that, `None`. -/
def find_movie_by_title (all_movies : List ArrEntry) (title : String) : Option ArrEntry :=
  match all_movies.find? (fun movie => exactTitleMatch title movie) with
  | some movie => some movie
  | Option.none => all_movies.find? (fun movie => containTitleMatch title movie)

/-- `SonarrClient.find_series_by_title` (lines 382-397): identical logic to
the Radarr search, over the series catalog. -/
def find_series_by_title (all_series : List ArrEntry) (title : String) : Option ArrEntry :=
  match all_series.find? (fun series => exactTitleMatch title series) with
  | some series => some series
  | Option.none => all_series.find? (fun series => containTitleMatch title series)

/-- Lines 795-822 with the cutoff already computed: the orchestrator's
recently-added-episode pass collects the ids of unwatched series having
some episode whose `DateCreated` is after the cutoff; it is skipped
entirely under `--ignore-recent-episodes`. -/
def orchestratorRecentSeriesPassAt (gw : Emby) (cutoff_date : Nat) (ignore_recent_episodes : Bool)
    (unwatched_items : List Item) : List Nat :=
  if ignore_recent_episodes then []
  else
    ((unwatched_items.filter (fun item =>
        item.itemType == "Series" &&
          (gw.episodes item.id).any (fun ep =>
            match ep.dateCreated with
            | some dc => decide (dc > cutoff_date)
            | Option.none => false))).map Item.id)

/-- Lines 793-822: `process_unwatched_media` recomputes the cutoff from the
current time (line 793) before the recently-added-episode pass. -/
def orchestratorRecentSeriesPass (gw : Emby) (now days : Nat) (ignore_recent_episodes : Bool)
    (unwatched_items : List Item) : List Nat :=
  orchestratorRecentSeriesPassAt gw (cutoffDate now days) ignore_recent_episodes unwatched_items

/-- The composition of the resolver (reading the clock at `tResolver`, line
200) and the orchestrator's recently-added-episode pass (reading the clock
again at `tOrchestrator`, line 793) within one run of
`process_unwatched_media`. -/
def runRecentSeriesIds (gw : Emby) (tResolver tOrchestrator days : Nat)
    (whitelisted_users library_names : List String) (ignore_recent_episodes : Bool) : List Nat :=
  orchestratorRecentSeriesPass gw tOrchestrator days ignore_recent_episodes
    (get_unwatched_items gw tResolver days whitelisted_users library_names).2

/-- An answer to the interactive deletion prompt (lines 534-555): yes, no,
or quit (which exits the process). -/
inductive PromptAns where
  | yes
  | no
  | quit
deriving DecidableEq, Repr

/-- The `--delete-mode` argument: `interactive`, `all` or `none`. -/
inductive DeleteMode where
  | interactive
  | all
  | none
deriving DecidableEq, Repr

/-- The arguments the deletion phase reads: the delete mode, whether an
`--interval` was given, `--dry-run` and `--delete-files`. -/
structure DeletionArgs where
  deleteMode : DeleteMode
  isInterval : Bool
  dryRun : Bool
  deleteFiles : Bool
deriving DecidableEq, Repr

/-- One delete call issued to a catalog gateway: `RadarrClient.delete_movie`
or `SonarrClient.delete_series`, with the `deleteFiles` parameter. -/
inductive ArrCall where
  | deleteMovie (id : Nat) (delete_files : Bool)
  | deleteSeries (id : Nat) (delete_files : Bool)
deriving DecidableEq, Repr

/-- A movie/show entry of the deletion phase (lines 850-881): name, the
size obtained from the companion catalog (0 when uncorrelated) and the
companion-catalog id (`None` when uncorrelated). -/
structure MediaEntry where
  name : String
  size : Nat
  arrId : Option Nat
deriving DecidableEq, Repr

/-- The running state of one deletion loop: the delete calls issued so far,
the freed-size tally and the deleted-item count of the summary. -/
structure DeletionTally where
  calls : List ArrCall
  deletedSize : Nat
  deletedCount : Nat
deriving DecidableEq, Repr

/-- Lines 949-962 / 983-996: the effect of processing one confirmed item on
top of the rest of the loop: under dry-run no call is issued and the size
and count are tallied; live, the delete call is issued and the tallies grow
only on success. -/
def confirmedStep (args : DeletionArgs) (mkCall : Nat → ArrCall) (deleteOk : Nat → Bool)
    (entry : MediaEntry) (entry_id : Nat) (tail : DeletionTally × Bool) : DeletionTally × Bool :=
  let t := tail.1
  if args.dryRun then
    (⟨t.calls, entry.size + t.deletedSize, t.deletedCount + 1⟩, tail.2)
  else if deleteOk entry_id then
    (⟨mkCall entry_id :: t.calls, entry.size + t.deletedSize, t.deletedCount + 1⟩, tail.2)
  else
    (⟨mkCall entry_id :: t.calls, t.deletedSize, t.deletedCount⟩, tail.2)

/-- Lines 931-996, one deletion loop (movies under Radarr, shows under
Sonarr): skip uncorrelated entries; under mode `all` every entry is
confirmed; under `interactive` the entry is skipped in interval mode,
otherwise the prompt decides, where quit aborts the whole process (the
returned flag); under mode `none` nothing is confirmed. -/
def processEntryList (args : DeletionArgs) (mkCall : Nat → ArrCall) (promptFn : String → PromptAns)
    (deleteOk : Nat → Bool) : List MediaEntry → DeletionTally × Bool
  | [] => (⟨[], 0, 0⟩, false)
  | entry :: rest =>
    match entry.arrId with
    | Option.none => processEntryList args mkCall promptFn deleteOk rest
    | some entry_id =>
      match args.deleteMode with
      | DeleteMode.all =>
        confirmedStep args mkCall deleteOk entry entry_id (processEntryList args mkCall promptFn deleteOk rest)
      | DeleteMode.interactive =>
        if args.isInterval then processEntryList args mkCall promptFn deleteOk rest
        else
          match promptFn entry.name with
          | PromptAns.quit => (⟨[], 0, 0⟩, true)
          | PromptAns.no => processEntryList args mkCall promptFn deleteOk rest
          | PromptAns.yes =>
            confirmedStep args mkCall deleteOk entry entry_id (processEntryList args mkCall promptFn deleteOk rest)
      | DeleteMode.none => processEntryList args mkCall promptFn deleteOk rest

/-- The entries a deletion loop confirms for deletion, in order: correlated
entries confirmed by the mode (everything under `all`, the prompt's yes
answers under non-interval `interactive`, nothing under `none` or under
interval-mode `interactive`); a quit answer ends the run with no further
confirmations. -/
def confirmedEntries (args : DeletionArgs) (promptFn : String → PromptAns) : List MediaEntry → List MediaEntry
  | [] => []
  | entry :: rest =>
    match entry.arrId with
    | Option.none => confirmedEntries args promptFn rest
    | some _ =>
      match args.deleteMode with
      | DeleteMode.all => entry :: confirmedEntries args promptFn rest
      | DeleteMode.interactive =>
        if args.isInterval then confirmedEntries args promptFn rest
        else
          match promptFn entry.name with
          | PromptAns.quit => []
          | PromptAns.no => confirmedEntries args promptFn rest
          | PromptAns.yes => entry :: confirmedEntries args promptFn rest
      | DeleteMode.none => confirmedEntries args promptFn rest

/-- Lines 917-1007: the deletion phase runs the movies loop when a Radarr
client is configured and then, unless the movies loop quit the process, the
shows loop when a Sonarr client is configured.  Returns the movie tally,
the show tally and whether a quit aborted the process. -/
def deletionPhase (args : DeletionArgs) (promptFn : String → PromptAns)
    (radarrOk sonarrOk : Nat → Bool) (hasRadarr hasSonarr : Bool)
    (movies shows : List MediaEntry) : DeletionTally × DeletionTally × Bool :=
  let moviesRes :=
    if hasRadarr then
      processEntryList args (fun i => ArrCall.deleteMovie i args.deleteFiles) promptFn radarrOk movies
    else (⟨[], 0, 0⟩, false)
  if moviesRes.2 then (moviesRes.1, ⟨[], 0, 0⟩, true)
  else
    let showsRes :=
      if hasSonarr then
        processEntryList args (fun i => ArrCall.deleteSeries i args.deleteFiles) promptFn sonarrOk shows
      else (⟨[], 0, 0⟩, false)
    (moviesRes.1, showsRes.1, showsRes.2)

/-- The scheduler's state in `run_scheduled`: `last_run` (None until a
first run) and the times at which runs executed. -/
structure SchedState where
  lastRun : Option Nat
  runs : List Nat
deriving DecidableEq, Repr

/-- Lines 674-691, one wake tick of the scheduled loop: only when
`last_run` is set is the elapsed time compared against the interval; when
it is due, a run executes and `last_run` is reset to the tick time. -/
def schedTick (interval : Nat) (s : SchedState) (now : Nat) : SchedState :=
  match s.lastRun with
  | Option.none => s
  | some lr =>
    if lr + interval ≤ now then { lastRun := some now, runs := s.runs ++ [now] }
    else s

/-- `run_scheduled` (lines 650-714) over a finite sequence of wake-tick
times: `last_run` starts as None, populated (with an immediate run) only
under `--run-at-start`; then each tick is processed in turn. -/
def run_scheduled (run_at_start : Bool) (start_time interval : Nat) (ticks : List Nat) : SchedState :=
  let init : SchedState :=
    if run_at_start then { lastRun := some start_time, runs := [start_time] }
    else { lastRun := Option.none, runs := [] }
  ticks.foldl (schedTick interval) init

/-- The control-flow outcome of a Python call: normal return, an uncaught
`Exception`, a `KeyboardInterrupt`, or a `SystemExit` carrying an exit
code (`sys.exit`). -/
inductive PyFlow where
  | ok
  | exc
  | kbInt
  | sysExit (code : Nat)
deriving DecidableEq, Repr

/-- Whether an outcome is a `SystemExit`. -/
def isSysExitFlow : PyFlow → Bool
  | PyFlow.sysExit _ => true
  | _ => false

/-- Lines 720-1024: `process_unwatched_media` wraps its whole body in
`try/except Exception`, logging and returning normally on any ordinary
exception; `SystemExit` and `KeyboardInterrupt` do not derive `Exception`
and propagate. -/
def process_unwatched_media_flow (body : PyFlow) : PyFlow :=
  match body with
  | PyFlow.exc => PyFlow.ok
  | f => f

/-- Lines 1091-1101, the single-shot path of `main`: run
`process_unwatched_media`; a normal return ends the process with exit code
0, `KeyboardInterrupt` is caught and exits 0, an `Exception` reaching
`main` exits 1, and a propagating `SystemExit` keeps its code. -/
def mainSingleShotCode (body : PyFlow) : Nat :=
  match process_unwatched_media_flow body with
  | PyFlow.ok => 0
  | PyFlow.exc => 1
  | PyFlow.kbInt => 0
  | PyFlow.sysExit c => c

/-- The parameters of an Emby `/emby/Items` request as issued by
`get_items_by_library` and its replacement. -/
structure ItemsRequest where
  urlPath : String
  parentId : Nat
  recursive : Bool
  includeItemTypes : String
  fields : String
  sortBy : String
  sortOrder : String
deriving DecidableEq, Repr

/-- Lines 76-98: the request issued by `EmbyClient.get_items_by_library`. -/
def get_items_by_library_request (library_id : Nat) : ItemsRequest :=
  { urlPath := "/emby/Items"
    parentId := library_id
    recursive := true
    includeItemTypes := "Movie,Series"
    fields := "DateLastPlayed,Path,MediaStreams,Overview,DateCreated"
    sortBy := "DateCreated,SortName"
    sortOrder := "Descending" }

/-- Lines 760-781: the request issued by the `updated_get_items` override
that `process_unwatched_media` installs when `--include-recent` is not
set. -/
def updated_get_items_request (library_id : Nat) : ItemsRequest :=
  { urlPath := "/emby/Items"
    parentId := library_id
    recursive := true
    includeItemTypes := "Movie,Series"
    fields := "DateLastPlayed,Path,MediaStreams,Overview,DateCreated"
    sortBy := "DateCreated,SortName"
    sortOrder := "Descending" }

/-- Lines 783-786: the item-fetch method actually installed on the client:
the original under `--include-recent`, the override otherwise. -/
def effectiveItemsFetch (include_recent : Bool) (server : ItemsRequest → List Item) : Nat → List Item :=
  if include_recent then fun library_id => server (get_items_by_library_request library_id)
  else fun library_id => server (updated_get_items_request library_id)

/-- Lines 1070-1093 composed with a run: `main` enters interval mode only
when `args.interval` is truthy (line 1070, so `None` and `0` both fall
through); inside interval mode a non-positive interval — which by the
truthiness gate can only be negative — is rejected before any client is
constructed (lines 1071-1073); every other path (a positive interval's
scheduled runs, or the single-shot branch at line 1093 for an absent or
zero interval) proceeds to a run that issues its gateway calls. -/
def main_interval_run (interval : Option Int) (gw : Emby) (now days : Nat)
    (whitelisted_users library_names : List String) : List EmbyCall × List Item :=
  match interval with
  | some i =>
    if i == 0 then
      get_unwatched_items gw now days whitelisted_users library_names
    else if i ≤ 0 then ([], [])
    else get_unwatched_items gw now days whitelisted_users library_names
  | Option.none => get_unwatched_items gw now days whitelisted_users library_names

/-- The per-item decision of the global pass, as a single boolean: not in
the whitelist exclusion set, not a series with a recently played episode,
not recently added, and passing the final last-played test. -/
def itemDecision (gw : Emby) (cutoff_date : Nat) (excluded : List Nat) (item : Item) : Bool :=
  !(excluded.contains item.id)
  && !(item.itemType == "Series" && anyEpisodeRecentlyPlayed gw cutoff_date item.id)
  && !(recentlyAdded cutoff_date item)
  && lastPlayedTest cutoff_date item

theorem processItem_snd (gw : Emby) (cutoff_date : Nat) (excluded : List Nat)
    (library_name : Option String) (item : Item) :
    (processItem gw cutoff_date excluded library_name item).2 =
      if itemDecision gw cutoff_date excluded item then [setLibraryName item library_name] else [] := by
  by_cases h1 : item.id ∈ excluded <;>
    cases h2 : item.itemType == "Series" <;>
      cases h3 : anyEpisodeRecentlyPlayed gw cutoff_date item.id <;>
        cases h4 : recentlyAdded cutoff_date item <;>
          cases h5 : lastPlayedTest cutoff_date item <;>
            simp [processItem, itemDecision, h1, h2, h3, h4, h5]

theorem mem_processItems (gw : Emby) (cutoff_date : Nat) (excluded : List Nat)
    (library_name : Option String) (items : List Item) (x : Item) :
    x ∈ (processItems gw cutoff_date excluded library_name items).2 ↔
      ∃ item, item ∈ items ∧ x ∈ (processItem gw cutoff_date excluded library_name item).2 := by
  induction items with
  | nil => simp [processItems]
  | cons item rest ih =>
    simp [processItems, List.mem_append, ih, List.mem_cons, exists_eq_or_imp]

theorem mem_globalPass (gw : Emby) (cutoff_date : Nat) (excluded : List Nat)
    (libs : List Library) (x : Item) :
    x ∈ (globalPass gw cutoff_date excluded libs).2 ↔
      ∃ lib, lib ∈ libs ∧ ∃ library_id, lib.itemId = some library_id ∧
        ∃ item, item ∈ gw.items library_id ∧
          x ∈ (processItem gw cutoff_date excluded lib.name item).2 := by
  induction libs with
  | nil => simp [globalPass]
  | cons lib rest ih =>
    cases h : lib.itemId with
    | none =>
      simp [globalPass, h, ih, List.mem_cons, exists_eq_or_imp]
    | some library_id =>
      simp [globalPass, h, ih, List.mem_append, mem_processItems, List.mem_cons, exists_eq_or_imp]

theorem mem_ite_singleton {x y : Item} {c : Bool} :
    (x ∈ (if c then [y] else [])) ↔ (c = true ∧ x = y) := by
  cases c <;> simp

/-- Membership in the resolver's output: exactly the items of some active
library that pass the whole per-item decision, with the library name
attached. -/
theorem mem_unwatched_iff (gw : Emby) (cutoff_date : Nat)
    (whitelisted_users library_names : List String) (libs : List Library)
    (hfilter : filterLibraries gw.libraries library_names = some libs) (x : Item) :
    x ∈ (get_unwatched_items_at gw cutoff_date whitelisted_users library_names).2 ↔
      ∃ lib, lib ∈ libs ∧ ∃ library_id, lib.itemId = some library_id ∧
        ∃ item, item ∈ gw.items library_id ∧
          itemDecision gw cutoff_date
            (whitelistRun gw cutoff_date (resolveWhitelistedIds gw.users whitelisted_users) libs).2 item = true ∧
          x = setLibraryName item lib.name := by
  simp only [get_unwatched_items_at, hfilter]
  rw [mem_globalPass]
  simp only [processItem_snd, mem_ite_singleton]

theorem lastPlayedTest_eq_true_iff (cutoff_date : Nat) (item : Item) :
    lastPlayedTest cutoff_date item = true ↔
      (item.dateLastPlayed = Option.none ∨ ∃ lp, item.dateLastPlayed = some lp ∧ lp < cutoff_date) := by
  cases h : item.dateLastPlayed <;> simp [lastPlayedTest, h]

theorem recentlyAdded_eq_false_iff (cutoff_date : Nat) (item : Item) :
    recentlyAdded cutoff_date item = false ↔ ∀ dc, item.dateCreated = some dc → dc ≤ cutoff_date := by
  cases h : item.dateCreated <;> simp [recentlyAdded, h]

theorem setLibraryName_fields (a b : Item) (n m : Option String)
    (h : setLibraryName a n = setLibraryName b m) :
    a.id = b.id ∧ a.itemType = b.itemType ∧ a.dateCreated = b.dateCreated ∧
      a.dateLastPlayed = b.dateLastPlayed := by
  cases a
  cases b
  simp only [setLibraryName, Item.mk.injEq] at h
  exact ⟨h.1, h.2.2.1, h.2.2.2.1, h.2.2.2.2.1⟩

theorem itemDecision_congr (gw : Emby) (cutoff_date : Nat) (excluded : List Nat)
    (a b : Item) (n m : Option String) (h : setLibraryName a n = setLibraryName b m) :
    itemDecision gw cutoff_date excluded a = itemDecision gw cutoff_date excluded b := by
  obtain ⟨h1, h2, h3, h4⟩ := setLibraryName_fields a b n m h
  simp [itemDecision, recentlyAdded, lastPlayedTest, anyEpisodeRecentlyPlayed, h1, h2, h3, h4]

theorem itemDecision_parts (gw : Emby) (cutoff_date : Nat) (excluded : List Nat) (item : Item)
    (h : itemDecision gw cutoff_date excluded item = true) :
    ¬(item.id ∈ excluded) ∧
      (item.itemType == "Series" && anyEpisodeRecentlyPlayed gw cutoff_date item.id) = false ∧
      recentlyAdded cutoff_date item = false ∧
      lastPlayedTest cutoff_date item = true := by
  simp only [itemDecision, Bool.and_eq_true, Bool.not_eq_true'] at h
  refine ⟨?_, h.1.1.2, h.1.2, h.2⟩
  simpa using h.1.1.1

theorem itemDecision_of_parts (gw : Emby) (cutoff_date : Nat) (excluded : List Nat) (item : Item)
    (h1 : ¬(item.id ∈ excluded))
    (h2 : (item.itemType == "Series" && anyEpisodeRecentlyPlayed gw cutoff_date item.id) = false)
    (h3 : recentlyAdded cutoff_date item = false)
    (h4 : lastPlayedTest cutoff_date item = true) :
    itemDecision gw cutoff_date excluded item = true := by
  simp [itemDecision, h1, h2, h3, h4]

/-- A `find?` returns `some a` exactly when the list splits as a prefix of
non-matches followed by the first match `a`. -/
theorem find_eq_some_first {α : Type} (p : α → Bool) (l : List α) (a : α) :
    l.find? p = some a ↔
      ∃ l₁ l₂, l = l₁ ++ a :: l₂ ∧ p a = true ∧ ∀ x ∈ l₁, p x = false := by
  induction l with
  | nil => simp
  | cons b rest ih =>
    cases hb : p b with
    | true =>
      rw [List.find?_cons_of_pos _ hb]
      constructor
      · intro h
        obtain rfl : b = a := by simpa using h
        exact ⟨[], rest, rfl, hb, by simp⟩
      · rintro ⟨l₁, l₂, heq, hpa, hfirst⟩
        cases l₁ with
        | nil =>
          simp only [List.nil_append, List.cons.injEq] at heq
          simp [heq.1]
        | cons c l₁ =>
          simp only [List.cons_append, List.cons.injEq] at heq
          obtain ⟨rfl, -⟩ := heq
          exact absurd hb (by simp [hfirst b (List.mem_cons_self b l₁)])
    | false =>
      rw [List.find?_cons_of_neg _ (by simp [hb])]
      rw [ih]
      constructor
      · rintro ⟨l₁, l₂, rfl, hpa, hfirst⟩
        refine ⟨b :: l₁, l₂, rfl, hpa, ?_⟩
        intro x hx
        rcases List.mem_cons.mp hx with rfl | hx
        · exact hb
        · exact hfirst x hx
      · rintro ⟨l₁, l₂, heq, hpa, hfirst⟩
        cases l₁ with
        | nil =>
          simp only [List.nil_append, List.cons.injEq] at heq
          obtain ⟨rfl, rfl⟩ := heq
          rw [hpa] at hb
          cases hb
        | cons c l₁ =>
          simp only [List.cons_append, List.cons.injEq] at heq
          obtain ⟨rfl, rfl⟩ := heq
          exact ⟨l₁, l₂, rfl, hpa, fun x hx => hfirst x (by simp [hx])⟩

/-- A whitelisted user on the C1 gateway. -/
def aliceC1 : EmbyUser := ⟨1, "alice"⟩

/-- The series as seen in the whitelisted user's library view: its
series-level `UserData` does not satisfy the watched predicate. -/
def seriesUserC1 : Item := ⟨100, "Quiet Show", "Series", Option.none, Option.none, ⟨Option.none, 0, false⟩, Option.none⟩

/-- The whitelisted user's view of the series' episode: `Played` is set, so
its watch-fact satisfies the watched predicate. -/
def epUserC1 : Item := ⟨1000, "Pilot", "Episode", Option.none, Option.none, ⟨Option.none, 0, true⟩, Option.none⟩

/-- The series as seen in the library-wide item listing: created before the
cutoff, never played at series level. -/
def seriesC1 : Item := ⟨100, "Quiet Show", "Series", some 5, Option.none, ⟨Option.none, 0, false⟩, Option.none⟩

/-- The episode as seen in the library-wide episode listing: no
`DateLastPlayed` (only the played flag was ever set). -/
def epGlobalC1 : Item := ⟨1000, "Pilot", "Episode", some 5, Option.none, ⟨Option.none, 0, false⟩, Option.none⟩

/-- The C1 gateway: one whitelisted user, one library, one series with one
episode, with the views above. -/
def gwC1 : Emby :=
  { users := [aliceC1]
    libraries := [⟨some 10, some "TV"⟩]
    items := fun library_id => if library_id == 10 then [seriesC1] else []
    userItems := fun user_id library_id => if user_id == 1 && library_id == 10 then [seriesUserC1] else []
    episodes := fun series_id => if series_id == 100 then [epGlobalC1] else []
    userEpisodes := fun user_id series_id => if user_id == 1 && series_id == 100 then [epUserC1] else [] }

/-- C1: the claim fails on the code.  The whitelisted user alice has an
episode of the series whose watch-fact satisfies the watched predicate,
while her series-level record does not; the code nevertheless KEEPS the
series in the resolver's unwatched output, because the episode check of the
whitelisted-watch pass (lines 272-291) is nested inside the branch that
requires the series-level record to satisfy the watched predicate, so it
can never add a series that was not already excluded. -/
theorem claim_C1_episode_watch_does_not_exclude :
    watchedPredicate (cutoffDate 100 50) epUserC1.userData = true ∧
    watchedPredicate (cutoffDate 100 50) seriesUserC1.userData = false ∧
    gwC1.userEpisodes aliceC1.id seriesC1.id = [epUserC1] ∧
    (get_unwatched_items gwC1 100 50 ["alice"] []).2 = [setLibraryName seriesC1 (some "TV")] :=
  ⟨rfl, rfl, rfl, by decide⟩

/-- C3: for an item of an active library that is not excluded by the
whitelist pass, not vetoed by the series recent-episode check and not
skipped as recently created, membership in the resolver's output is
equivalent to the item's own last-played timestamp being absent or
strictly below the cutoff. -/
theorem claim_C3_final_lastPlayed_test (gw : Emby) (now days : Nat)
    (whitelisted_users library_names : List String) (libs : List Library)
    (lib : Library) (library_id : Nat) (item : Item)
    (hfilter : filterLibraries gw.libraries library_names = some libs)
    (hlib : lib ∈ libs) (hid : lib.itemId = some library_id)
    (hitem : item ∈ gw.items library_id)
    (hexcl : ¬(item.id ∈ (whitelistRun gw (cutoffDate now days)
      (resolveWhitelistedIds gw.users whitelisted_users) libs).2))
    (hveto : (item.itemType == "Series" && anyEpisodeRecentlyPlayed gw (cutoffDate now days) item.id) = false)
    (hrecent : recentlyAdded (cutoffDate now days) item = false) :
    setLibraryName item lib.name ∈ (get_unwatched_items gw now days whitelisted_users library_names).2 ↔
      (item.dateLastPlayed = Option.none ∨
        ∃ lp, item.dateLastPlayed = some lp ∧ lp < cutoffDate now days) := by
  rw [get_unwatched_items,
    mem_unwatched_iff gw (cutoffDate now days) whitelisted_users library_names libs hfilter]
  constructor
  · rintro ⟨lib2, hlib2, lid2, hid2, item2, hitem2, hdec2, heq⟩
    have hfl := setLibraryName_fields item item2 lib.name lib2.name heq
    have hlast := (itemDecision_parts _ _ _ _ hdec2).2.2.2
    rw [lastPlayedTest_eq_true_iff] at hlast
    rw [hfl.2.2.2]
    exact hlast
  · intro hlp
    refine ⟨lib, hlib, library_id, hid, item, hitem, ?_, rfl⟩
    exact itemDecision_of_parts _ _ _ _ hexcl hveto hrecent
      ((lastPlayedTest_eq_true_iff _ _).mpr hlp)

/-- A plain unplayed movie, created well before the cutoff. -/
def itemW3 : Item := ⟨1, "Old Movie", "Movie", some 10, Option.none, ⟨Option.none, 0, false⟩, Option.none⟩

/-- A single library holding `itemW3`. -/
def libW3 : Library := ⟨some 5, some "Films"⟩

/-- A minimal gateway for the C3/C4 witnesses. -/
def gwW3 : Emby :=
  { users := []
    libraries := [libW3]
    items := fun _ => [itemW3]
    userItems := fun _ _ => []
    episodes := fun _ => []
    userEpisodes := fun _ _ => [] }

theorem claim_C3_witness :
    filterLibraries gwW3.libraries [] = some [libW3] ∧
    libW3 ∈ [libW3] ∧
    libW3.itemId = some 5 ∧
    itemW3 ∈ gwW3.items 5 ∧
    ¬(itemW3.id ∈ (whitelistRun gwW3 (cutoffDate 100 50)
      (resolveWhitelistedIds gwW3.users []) [libW3]).2) ∧
    (itemW3.itemType == "Series" && anyEpisodeRecentlyPlayed gwW3 (cutoffDate 100 50) itemW3.id) = false ∧
    recentlyAdded (cutoffDate 100 50) itemW3 = false ∧
    (setLibraryName itemW3 libW3.name ∈ (get_unwatched_items gwW3 100 50 [] []).2 ↔
      (itemW3.dateLastPlayed = Option.none ∨
        ∃ lp, itemW3.dateLastPlayed = some lp ∧ lp < cutoffDate 100 50)) :=
  ⟨rfl, by simp, rfl, by simp [gwW3], by simp [whitelistRun, resolveWhitelistedIds, gwW3], rfl, rfl,
    claim_C3_final_lastPlayed_test gwW3 100 50 [] [] [libW3] libW3 5 itemW3 rfl (by simp) rfl
      (by simp [gwW3]) (by simp [whitelistRun, resolveWhitelistedIds, gwW3]) rfl rfl⟩

/-- C4 (amended): the recently-added skip uses a strict inequality in the
other direction than the claim states: an item is treated as recent only
when its creation timestamp is strictly greater than the cutoff, so an item
created exactly at the cutoff is NOT excluded as recent.  For an item of an
active library that is not excluded by the whitelist pass, not vetoed, and
has no last-played timestamp, membership in the output is equivalent to its
creation timestamp being at most the cutoff (or absent). -/
theorem claim_C4_amended_creation_boundary (gw : Emby) (now days : Nat)
    (whitelisted_users library_names : List String) (libs : List Library)
    (lib : Library) (library_id : Nat) (item : Item)
    (hfilter : filterLibraries gw.libraries library_names = some libs)
    (hlib : lib ∈ libs) (hid : lib.itemId = some library_id)
    (hitem : item ∈ gw.items library_id)
    (hexcl : ¬(item.id ∈ (whitelistRun gw (cutoffDate now days)
      (resolveWhitelistedIds gw.users whitelisted_users) libs).2))
    (hveto : (item.itemType == "Series" && anyEpisodeRecentlyPlayed gw (cutoffDate now days) item.id) = false)
    (hlp : item.dateLastPlayed = Option.none) :
    setLibraryName item lib.name ∈ (get_unwatched_items gw now days whitelisted_users library_names).2 ↔
      (∀ dc, item.dateCreated = some dc → dc ≤ cutoffDate now days) := by
  rw [get_unwatched_items,
    mem_unwatched_iff gw (cutoffDate now days) whitelisted_users library_names libs hfilter]
  constructor
  · rintro ⟨lib2, hlib2, lid2, hid2, item2, hitem2, hdec2, heq⟩
    have hfl := setLibraryName_fields item item2 lib.name lib2.name heq
    have hrec := (itemDecision_parts _ _ _ _ hdec2).2.2.1
    rw [recentlyAdded_eq_false_iff] at hrec
    intro dc hdc
    refine hrec dc ?_
    rw [← hfl.2.2.1]
    exact hdc
  · intro hdc
    refine ⟨lib, hlib, library_id, hid, item, hitem, ?_, rfl⟩
    refine itemDecision_of_parts _ _ _ _ hexcl hveto
      ((recentlyAdded_eq_false_iff _ _).mpr hdc) ?_
    rw [lastPlayedTest_eq_true_iff]
    exact Or.inl hlp

theorem claim_C4_witness :
    filterLibraries gwW3.libraries [] = some [libW3] ∧
    libW3 ∈ [libW3] ∧
    libW3.itemId = some 5 ∧
    itemW3 ∈ gwW3.items 5 ∧
    ¬(itemW3.id ∈ (whitelistRun gwW3 (cutoffDate 100 50)
      (resolveWhitelistedIds gwW3.users []) [libW3]).2) ∧
    (itemW3.itemType == "Series" && anyEpisodeRecentlyPlayed gwW3 (cutoffDate 100 50) itemW3.id) = false ∧
    itemW3.dateLastPlayed = Option.none ∧
    (setLibraryName itemW3 libW3.name ∈ (get_unwatched_items gwW3 100 50 [] []).2 ↔
      (∀ dc, itemW3.dateCreated = some dc → dc ≤ cutoffDate 100 50)) :=
  ⟨rfl, by simp, rfl, by simp [gwW3], by simp [whitelistRun, resolveWhitelistedIds, gwW3], rfl, rfl,
    claim_C4_amended_creation_boundary gwW3 100 50 [] [] [libW3] libW3 5 itemW3 rfl (by simp) rfl
      (by simp [gwW3]) (by simp [whitelistRun, resolveWhitelistedIds, gwW3]) rfl rfl⟩

/-- A never-played movie created exactly at the cutoff (`cutoffDate 100 50
= 50`). -/
def itemC4 : Item := ⟨2, "Boundary Movie", "Movie", some 50, Option.none, ⟨Option.none, 0, false⟩, Option.none⟩

/-- A gateway whose single library holds only the boundary movie. -/
def gwC4 : Emby :=
  { users := []
    libraries := [⟨some 7, some "Movies"⟩]
    items := fun _ => [itemC4]
    userItems := fun _ _ => []
    episodes := fun _ => []
    userEpisodes := fun _ _ => [] }

/-- C4 counterexample to the claim as stated: an item whose creation
timestamp equals the cutoff is NOT excluded from the resolver's unwatched
output — it is classified unwatched. -/
theorem claim_C4_counterexample :
    itemC4.dateCreated = some (cutoffDate 100 50) ∧
    (get_unwatched_items gwC4 100 50 [] []).2 = [setLibraryName itemC4 (some "Movies")] :=
  ⟨rfl, rfl⟩

/-- The two title search functions have identical definitions. -/
theorem find_series_eq_find_movie : find_series_by_title = find_movie_by_title :=
  rfl

/-- The title search returns the first exact match when one exists, and
otherwise the first containment match. -/
theorem find_by_title_first (all : List ArrEntry) (title : String) (e : ArrEntry)
    (h : find_movie_by_title all title = some e) :
    (∃ l₁ l₂, all = l₁ ++ e :: l₂ ∧ exactTitleMatch title e = true ∧
      ∀ x ∈ l₁, exactTitleMatch title x = false) ∨
    ((∀ x ∈ all, exactTitleMatch title x = false) ∧
      ∃ l₁ l₂, all = l₁ ++ e :: l₂ ∧ containTitleMatch title e = true ∧
        ∀ x ∈ l₁, containTitleMatch title x = false) := by
  unfold find_movie_by_title at h
  cases hex : all.find? (fun movie => exactTitleMatch title movie) with
  | some m =>
    rw [hex] at h
    obtain rfl : m = e := by simpa using h
    exact Or.inl ((find_eq_some_first _ _ _).mp hex)
  | none =>
    rw [hex] at h
    refine Or.inr ⟨?_, (find_eq_some_first _ _ _).mp h⟩
    intro x hx
    simpa using List.find?_eq_none.mp hex x hx

/-- The `Aliens` entry, listed before the `Alien` entry in the catalog. -/
def aliensEntry : ArrEntry := ⟨"Aliens", 1, 0⟩

/-- The `Alien` entry. -/
def alienEntry : ArrEntry := ⟨"Alien", 2, 0⟩

/-- C5: both title searches return the first case-insensitive exact match,
falling back to the first case-insensitive containment match only when no
exact match exists; in particular, with catalog titles `Aliens` and `Alien`
(in that order) and an item named `Alien`, the `Alien` entry is returned,
not `Aliens`. -/
theorem claim_C5_exact_match_wins :
    (∀ (all : List ArrEntry) (title : String) (e : ArrEntry),
        find_movie_by_title all title = some e →
          (∃ l₁ l₂, all = l₁ ++ e :: l₂ ∧ exactTitleMatch title e = true ∧
            ∀ x ∈ l₁, exactTitleMatch title x = false) ∨
          ((∀ x ∈ all, exactTitleMatch title x = false) ∧
            ∃ l₁ l₂, all = l₁ ++ e :: l₂ ∧ containTitleMatch title e = true ∧
              ∀ x ∈ l₁, containTitleMatch title x = false)) ∧
    (∀ (all : List ArrEntry) (title : String) (e : ArrEntry),
        find_series_by_title all title = some e →
          (∃ l₁ l₂, all = l₁ ++ e :: l₂ ∧ exactTitleMatch title e = true ∧
            ∀ x ∈ l₁, exactTitleMatch title x = false) ∨
          ((∀ x ∈ all, exactTitleMatch title x = false) ∧
            ∃ l₁ l₂, all = l₁ ++ e :: l₂ ∧ containTitleMatch title e = true ∧
              ∀ x ∈ l₁, containTitleMatch title x = false)) ∧
    find_movie_by_title [aliensEntry, alienEntry] "Alien" = some alienEntry ∧
    find_series_by_title [aliensEntry, alienEntry] "Alien" = some alienEntry :=
  ⟨find_by_title_first,
   fun all title e h => find_by_title_first all title e (by rw [← find_series_eq_find_movie]; exact h),
   by decide, by decide⟩

theorem claim_C5_witness :
    find_movie_by_title [aliensEntry, alienEntry] "Alien" = some alienEntry ∧
    ((∃ l₁ l₂, [aliensEntry, alienEntry] = l₁ ++ alienEntry :: l₂ ∧
        exactTitleMatch "Alien" alienEntry = true ∧
        ∀ x ∈ l₁, exactTitleMatch "Alien" x = false) ∨
      ((∀ x ∈ [aliensEntry, alienEntry], exactTitleMatch "Alien" x = false) ∧
        ∃ l₁ l₂, [aliensEntry, alienEntry] = l₁ ++ alienEntry :: l₂ ∧
          containTitleMatch "Alien" alienEntry = true ∧
          ∀ x ∈ l₁, containTitleMatch "Alien" x = false)) :=
  ⟨by decide,
   claim_C5_exact_match_wins.1 [aliensEntry, alienEntry] "Alien" alienEntry (by decide)⟩

theorem processEntryList_dryRun (args : DeletionArgs) (mkCall : Nat → ArrCall)
    (promptFn : String → PromptAns) (deleteOk : Nat → Bool) (hd : args.dryRun = true)
    (entries : List MediaEntry) :
    (processEntryList args mkCall promptFn deleteOk entries).1.calls = [] ∧
    (processEntryList args mkCall promptFn deleteOk entries).1.deletedSize =
      ((confirmedEntries args promptFn entries).map MediaEntry.size).sum ∧
    (processEntryList args mkCall promptFn deleteOk entries).1.deletedCount =
      (confirmedEntries args promptFn entries).length := by
  induction entries with
  | nil => simp [processEntryList, confirmedEntries]
  | cons entry rest ih =>
    cases harr : entry.arrId with
    | none =>
      simp only [processEntryList, confirmedEntries, harr]
      exact ih
    | some entry_id =>
      cases hmode : args.deleteMode with
      | all =>
        simp [processEntryList, confirmedEntries, harr, hmode, confirmedStep, hd,
          ih.1, ih.2.1, ih.2.2]
      | interactive =>
        cases hint : args.isInterval with
        | true =>
          simp only [processEntryList, confirmedEntries, harr, hmode, hint, if_pos]
          exact ih
        | false =>
          cases hp : promptFn entry.name <;>
            simp [processEntryList, confirmedEntries, harr, hmode, hint, hp,
              confirmedStep, hd, ih.1, ih.2.1, ih.2.2]
      | none =>
        simp only [processEntryList, confirmedEntries, harr, hmode]
        exact ih

/-- C2: under dry-run no delete call is issued by either deletion loop (so
none reaches Radarr or Sonarr), while each confirmed item's size is added
to the freed-size tally and each confirmed item is counted as deleted in
the summary. -/
theorem claim_C2_dry_run_no_calls_but_tallied :
    (∀ (args : DeletionArgs) (mkCall : Nat → ArrCall) (promptFn : String → PromptAns)
        (deleteOk : Nat → Bool) (entries : List MediaEntry), args.dryRun = true →
        (processEntryList args mkCall promptFn deleteOk entries).1.calls = [] ∧
        (processEntryList args mkCall promptFn deleteOk entries).1.deletedSize =
          ((confirmedEntries args promptFn entries).map MediaEntry.size).sum ∧
        (processEntryList args mkCall promptFn deleteOk entries).1.deletedCount =
          (confirmedEntries args promptFn entries).length) ∧
    (∀ (args : DeletionArgs) (promptFn : String → PromptAns) (radarrOk sonarrOk : Nat → Bool)
        (hasRadarr hasSonarr : Bool) (movies shows : List MediaEntry), args.dryRun = true →
        (deletionPhase args promptFn radarrOk sonarrOk hasRadarr hasSonarr movies shows).1.calls = [] ∧
        (deletionPhase args promptFn radarrOk sonarrOk hasRadarr hasSonarr movies shows).2.1.calls = []) := by
  constructor
  · intro args mkCall promptFn deleteOk entries hd
    exact processEntryList_dryRun args mkCall promptFn deleteOk hd entries
  · intro args promptFn radarrOk sonarrOk hasRadarr hasSonarr movies shows hd
    have hm := (processEntryList_dryRun args (fun i => ArrCall.deleteMovie i args.deleteFiles)
      promptFn radarrOk hd movies).1
    have hs := (processEntryList_dryRun args (fun i => ArrCall.deleteSeries i args.deleteFiles)
      promptFn sonarrOk hd shows).1
    unfold deletionPhase
    cases hasRadarr <;> cases hasSonarr <;> simp [hm, hs] <;> split <;> simp [hm, hs]

/-- Concrete arguments for the C2 witness: delete mode `all`, not in
interval mode, dry-run on. -/
def argsW2 : DeletionArgs := ⟨DeleteMode.all, false, true, false⟩

/-- A correlated movie entry of size 7. -/
def entryW2 : MediaEntry := ⟨"Big Movie", 7, some 3⟩

/-- A prompt that always confirms (unused under mode `all`). -/
def promptW2 : String → PromptAns := fun _ => PromptAns.yes

/-- A gateway-success oracle (unused under dry-run). -/
def okW2 : Nat → Bool := fun _ => true

theorem claim_C2_witness :
    argsW2.dryRun = true ∧
    ((processEntryList argsW2 (fun i => ArrCall.deleteMovie i false) promptW2 okW2 [entryW2]).1.calls = [] ∧
      (processEntryList argsW2 (fun i => ArrCall.deleteMovie i false) promptW2 okW2 [entryW2]).1.deletedSize =
        ((confirmedEntries argsW2 promptW2 [entryW2]).map MediaEntry.size).sum ∧
      (processEntryList argsW2 (fun i => ArrCall.deleteMovie i false) promptW2 okW2 [entryW2]).1.deletedCount =
        (confirmedEntries argsW2 promptW2 [entryW2]).length) ∧
    ((deletionPhase argsW2 promptW2 okW2 okW2 true true [entryW2] []).1.calls = [] ∧
      (deletionPhase argsW2 promptW2 okW2 okW2 true true [entryW2] []).2.1.calls = []) :=
  ⟨rfl,
   claim_C2_dry_run_no_calls_but_tallied.1 argsW2 (fun i => ArrCall.deleteMovie i false)
     promptW2 okW2 [entryW2] rfl,
   claim_C2_dry_run_no_calls_but_tallied.2 argsW2 promptW2 okW2 okW2 true true [entryW2] [] rfl⟩

/-- A series created well before the cutoff and never played. -/
def seriesC6 : Item := ⟨200, "Slow Burn", "Series", some 10, Option.none, ⟨Option.none, 0, false⟩, Option.none⟩

/-- An episode of that series added at time 100 and never played. -/
def epC6 : Item := ⟨2000, "Finale", "Episode", some 100, Option.none, ⟨Option.none, 0, false⟩, Option.none⟩

/-- The C6 gateway: a single library with the series, whose episode list
holds the one late-added episode. -/
def gwC6 : Emby :=
  { users := []
    libraries := [⟨some 20, some "TV"⟩]
    items := fun _ => [seriesC6]
    userItems := fun _ _ => []
    episodes := fun series_id => if series_id == 200 then [epC6] else []
    userEpisodes := fun _ _ => [] }

/-- C6 counterexample: the recently-added-episode series exclusion does
NOT compare against the run-start cutoff.  With the resolver's clock read
fixed at 100, moving the orchestrator's clock read from 100 to 200 changes
the exclusion decision for the same series — the cutoff is recomputed from
the current time at line 793, mid-run, rather than held fixed. -/
theorem claim_C6_counterexample :
    runRecentSeriesIds gwC6 100 200 50 [] [] false ≠ runRecentSeriesIds gwC6 100 100 50 [] [] false ∧
    runRecentSeriesIds gwC6 100 100 50 [] [] false = [seriesC6.id] ∧
    runRecentSeriesIds gwC6 100 200 50 [] [] false = [] := by
  refine ⟨by decide, by decide, by decide⟩

/-- C6 (amended): each of the two computation sites uses one fixed cutoff:
the resolver computes the cutoff once at its start and all four of its
membership decisions depend on the clock only through that value, and the
orchestrator's recently-added-episode exclusion likewise depends on its own
(later) clock read only through the cutoff it recomputes — but these are
two separate computations, not one per run. -/
theorem claim_C6_amended_two_cutoff_sites :
    (∀ (gw : Emby) (t t2 days : Nat) (whitelisted_users library_names : List String),
        cutoffDate t days = cutoffDate t2 days →
          get_unwatched_items gw t days whitelisted_users library_names =
            get_unwatched_items gw t2 days whitelisted_users library_names) ∧
    (∀ (gw : Emby) (t t2 days : Nat) (ignore_recent_episodes : Bool) (unwatched : List Item),
        cutoffDate t days = cutoffDate t2 days →
          orchestratorRecentSeriesPass gw t days ignore_recent_episodes unwatched =
            orchestratorRecentSeriesPass gw t2 days ignore_recent_episodes unwatched) := by
  constructor
  · intro gw t t2 days wl ln h
    unfold get_unwatched_items
    rw [h]
  · intro gw t t2 days irE u h
    unfold orchestratorRecentSeriesPass
    rw [h]

theorem claim_C6_witness :
    cutoffDate 30 50 = cutoffDate 40 50 ∧
    get_unwatched_items gwC6 30 50 [] [] = get_unwatched_items gwC6 40 50 [] [] ∧
    orchestratorRecentSeriesPass gwC6 30 50 false [] = orchestratorRecentSeriesPass gwC6 40 50 false [] :=
  ⟨rfl, claim_C6_amended_two_cutoff_sites.1 gwC6 30 40 50 [] [] rfl,
   claim_C6_amended_two_cutoff_sites.2 gwC6 30 40 50 false [] rfl⟩

/-- C7: without `--run-at-start`, the scheduled loop never performs any
run: `last_run` starts as `None`, the run branch (line 677, `if last_run:`)
requires it to be set, and it is only ever set after a run — so over any
sequence of wake ticks and any interval, no run executes and `last_run`
stays `None`.  This refutes the claim that a first run eventually occurs;
the per-tick rule itself (run when elapsed ≥ interval, then reset
`last_run`) only ever fires from a populated `last_run`. -/
theorem claim_C7_no_first_run_without_run_at_start :
    ∀ (interval start_time : Nat) (ticks : List Nat),
      (run_scheduled false start_time interval ticks).runs = [] ∧
      (run_scheduled false start_time interval ticks).lastRun = Option.none := by
  intro interval start_time ticks
  have key : ∀ (ts : List Nat) (s : SchedState), s.lastRun = Option.none →
      ts.foldl (schedTick interval) s = s := by
    intro ts
    induction ts with
    | nil => intro s _; rfl
    | cons t rest ih =>
      intro s h
      have hstep : schedTick interval s t = s := by
        unfold schedTick
        rw [h]
      rw [List.foldl_cons, hstep]
      exact ih s h
  have hrun : run_scheduled false start_time interval ticks = ⟨Option.none, []⟩ :=
    key ticks ⟨Option.none, []⟩ rfl
  rw [hrun]
  exact ⟨rfl, rfl⟩

/-- C8 counterexample: an uncaught ordinary exception inside the run is
swallowed by the blanket `except Exception` of `process_unwatched_media`
(line 1021), so the single-shot process exits 0, not non-zero. -/
theorem claim_C8_counterexample :
    mainSingleShotCode PyFlow.exc = 0 :=
  rfl

/-- C8 (amended): in single-shot mode the process exits 0 on every outcome
that is not a `sys.exit` — normal completion, keyboard interrupt, and also
an ordinary exception inside the run (caught and logged by
`process_unwatched_media`); a non-zero exit arises only from a propagating
`SystemExit` with a non-zero code. -/
theorem claim_C8_amended_exit_codes :
    (∀ f : PyFlow, isSysExitFlow f = false → mainSingleShotCode f = 0) ∧
    (∀ f : PyFlow, mainSingleShotCode f ≠ 0 → ∃ c, c ≠ 0 ∧ f = PyFlow.sysExit c) := by
  constructor
  · intro f hf
    cases f with
    | ok => rfl
    | exc => rfl
    | kbInt => rfl
    | sysExit c => simp [isSysExitFlow] at hf
  · intro f hf
    cases f with
    | ok => exact absurd rfl hf
    | exc => exact absurd rfl hf
    | kbInt => exact absurd rfl hf
    | sysExit c =>
      refine ⟨c, ?_, rfl⟩
      intro h0
      exact hf (by simp [mainSingleShotCode, process_unwatched_media_flow, h0])

theorem claim_C8_witness :
    isSysExitFlow PyFlow.exc = false ∧
    mainSingleShotCode PyFlow.exc = 0 ∧
    mainSingleShotCode (PyFlow.sysExit 5) ≠ 0 ∧
    (∃ c, c ≠ 0 ∧ PyFlow.sysExit 5 = PyFlow.sysExit c) :=
  ⟨rfl, claim_C8_amended_exit_codes.1 PyFlow.exc rfl, by decide,
   claim_C8_amended_exit_codes.2 (PyFlow.sysExit 5) (by decide)⟩

/-- A gateway with one library named Movies, for the C9 counterexample. -/
def gwC9 : Emby :=
  { users := []
    libraries := [⟨some 1, some "Movies"⟩]
    items := fun _ => []
    userItems := fun _ _ => []
    episodes := fun _ => []
    userEpisodes := fun _ _ => [] }

/-- C9 counterexample: with a non-empty library filter matching no library,
the resolver still issues two gateway calls — the users fetch and the
libraries fetch — before detecting the mismatch, and it then returns an
empty result rather than aborting the run.  The claim that the failure is
surfaced before any gateway call is made is false for this configuration
error. -/
theorem claim_C9_counterexample :
    (get_unwatched_items gwC9 100 50 [] ["TV"]).1 = [EmbyCall.getUsers, EmbyCall.getLibraries] ∧
    (get_unwatched_items gwC9 100 50 [] ["TV"]).1 ≠ [] ∧
    (get_unwatched_items gwC9 100 50 [] ["TV"]).2 = [] :=
  ⟨rfl, by decide, rfl⟩

/-- C9 (amended): a negative recurring interval does abort before any
gateway call; a recurring interval of exactly 0 is falsy to the truthiness
gate `if args.interval:` (line 1070), so the validation at line 1071 is
never reached and the program instead performs a single-shot run that
issues gateway calls with no error surfaced; and a non-matching non-empty
library filter is detected only after the users and libraries fetches,
after which the resolution degrades to an empty result with no further
(item-level) gateway calls and the run continues. -/
theorem claim_C9_amended_config_failures :
    (∀ (interval : Int) (gw : Emby) (now days : Nat) (whitelisted_users library_names : List String),
        interval < 0 →
          (main_interval_run (some interval) gw now days whitelisted_users library_names).1 = []) ∧
    (∀ (gw : Emby) (now days : Nat) (whitelisted_users library_names : List String),
        main_interval_run (some 0) gw now days whitelisted_users library_names =
          get_unwatched_items gw now days whitelisted_users library_names) ∧
    (∀ (gw : Emby) (now days : Nat) (whitelisted_users library_names : List String),
        filterLibraries gw.libraries library_names = Option.none →
          get_unwatched_items gw now days whitelisted_users library_names =
            ([EmbyCall.getUsers, EmbyCall.getLibraries], [])) := by
  refine ⟨?_, ?_, ?_⟩
  · intro interval gw now days wl ln h
    have h1 : (interval == 0) = false := by
      simp only [beq_eq_false_iff_ne, ne_eq]
      omega
    have h2 : interval ≤ 0 := le_of_lt h
    simp [main_interval_run, h1, h2]
  · intro gw now days wl ln
    rfl
  · intro gw now days wl ln h
    simp [get_unwatched_items, get_unwatched_items_at, h]

theorem claim_C9_witness :
    ((-1 : Int) < 0) ∧
    (main_interval_run (some (-1)) gwC9 100 50 [] []).1 = [] ∧
    main_interval_run (some 0) gwC9 100 50 [] [] = get_unwatched_items gwC9 100 50 [] [] ∧
    filterLibraries gwC9.libraries ["TV"] = Option.none ∧
    get_unwatched_items gwC9 100 50 [] ["TV"] = ([EmbyCall.getUsers, EmbyCall.getLibraries], []) :=
  ⟨by decide, claim_C9_amended_config_failures.1 (-1) gwC9 100 50 [] [] (by decide),
   claim_C9_amended_config_failures.2.1 gwC9 100 50 [] [], rfl,
   claim_C9_amended_config_failures.2.2 gwC9 100 50 [] ["TV"] rfl⟩

/-- C10: the `updated_get_items` override installed when `--include-recent`
is unset issues exactly the same request (same path, same parameters, same
fields) as the original `get_items_by_library`, and the recently-added skip
inside the resolver is unconditional — so for every gateway behavior and
every argument configuration, the resolver's unwatched output is identical
whether or not the flag is set. -/
theorem claim_C10_include_recent_no_effect :
    (∀ library_id : Nat,
        get_items_by_library_request library_id = updated_get_items_request library_id) ∧
    (∀ (include_recent : Bool) (server : ItemsRequest → List Item) (gw : Emby)
        (now days : Nat) (whitelisted_users library_names : List String),
        get_unwatched_items { gw with items := effectiveItemsFetch include_recent server }
            now days whitelisted_users library_names =
          get_unwatched_items { gw with items := effectiveItemsFetch true server }
            now days whitelisted_users library_names) := by
  constructor
  · intro library_id
    rfl
  · intro include_recent server gw now days wl ln
    cases include_recent with
    | false => rfl
    | true => rfl
